import Mathlib

/-!
# Code-execution engine: job processor, sandbox runner and gateway handlers

A shallow embedding of `iicpc-backend/worker.js` (the BullMQ job processor,
`runCodeInDocker`, `pullImage`) and of `iicpc-backend/index.js` (the two HTTP
handlers), followed by theorems about them.

Asynchronous functions are embedded as values of `Eff α`: the list of external
calls made, in order, together with how the function ends: it returns a value,
throws an error, or never settles.  Every external call (file system, container
runtime, queue) takes its outcome from a `World`, one outcome per call site, so
that a theorem quantified over `World` covers every way the environment can
answer.  Every awaited call is taken to settle, except `container.wait`, which
stays pending for as long as the container runs.  Two facts about dockerode,
which is not part of the repository, are stated as contracts: what
`container.logs` resolves with (`dockerodeLogs`) and that `container.wait` has
no timeout of its own (`World.wait`).  Console output is diagnostic only and is
not recorded.  The job payload reaches the worker as two strings, as the editor
submits it; the submit handler is modelled on arbitrary JSON values.
-/

namespace IicpcEngine

/-! ## Values, errors and recorded effects -/

/-- A JavaScript `Error`, of which the program only ever reads `message`. -/
structure JsError where
  message : String
deriving DecidableEq, Repr

/-- The `HostConfig` object of the container options. -/
structure HostConfig where
  Binds : List String
  Memory : Nat
  CpuPeriod : Nat
  CpuQuota : Nat
  NetworkMode : String
  ReadonlyRootfs : Bool
deriving DecidableEq, Repr

/-- The options object handed to `docker.createContainer`. -/
structure ContainerOptions where
  Image : String
  Cmd : List String
  HostConfig : HostConfig
  WorkingDir : String
  StopTimeout : Nat
deriving DecidableEq, Repr

/-- What the processor returns to the queue: `{ stdout, stderr }`. -/
structure Result where
  stdout : String
  stderr : String
deriving DecidableEq, Repr

/-- A value of a JSON request body field, as far as `!v` can tell values apart.
Numbers are represented by integers; `object` stands for any object or array. -/
inductive JsVal where
  | undefined
  | null
  | bool (b : Bool)
  | num (n : Int)
  | str (s : String)
  | object
deriving DecidableEq, Repr

/-- One external call.  Container calls carry the identifier of the container
they are made on; `containerLogs` carries the options `stdout`, `stderr` and
`follow` (an option that is not passed reads as `false`). -/
inductive Event where
  | mkdir (dir : String) (recursive : Bool)
  | writeFile (file : String) (data : String)
  | imageInspect (image : String)
  | pull (image : String)
  | followProgress (image : String)
  | createContainer (opts : ContainerOptions)
  | containerStart (id : Nat)
  | containerWait (id : Nat) (timeoutMs : Nat)
  | containerLogs (id : Nat) (stdout : Bool) (stderr : Bool) (follow : Bool)
  | containerRemove (id : Nat)
  | rm (dir : String) (recursive : Bool) (force : Bool)
  | queueAdd (name : String) (code : JsVal) (language : JsVal)
deriving DecidableEq, Repr

/-- How an awaited promise ends: it resolves with a value, rejects with an
error, or never settles. -/
inductive Outcome (α : Type) where
  | ok (a : α)
  | error (e : JsError)
  | pending
deriving DecidableEq, Repr

/-- The outcome of a call that settles. -/
def Outcome.ofExcept {α : Type} : Except JsError α → Outcome α
  | .ok a => .ok a
  | .error e => .error e

/-- What `container.logs` can resolve with: a Buffer holding the whole log, or
a readable stream that delivers the log in chunks. -/
inductive LogsValue where
  | buffer (content : String)
  | stream (chunks : List String)
deriving DecidableEq, Repr

/-- Contract of dockerode's `container.logs(opts)`: the call resolves with a
readable stream only when `follow: true` is passed, and with a Buffer
otherwise.  `log` is the log of the container, in the chunks a stream would
deliver (each already decoded with `toString('utf8')`). -/
def dockerodeLogs (follow : Bool) (log : List String) : LogsValue :=
  if follow then .stream log else .buffer (String.join log)

/-- The environment of one job: the outcome of every external call the worker
makes for it.  `wait` is how `container.wait({ timeout: 5000 })` ends:
dockerode resolves it with the status code once the container has exited and
has no timeout of its own (the `timeout` key is not acted on), so for a process
that does not exit the promise stays pending; the call can also reject, as any
call to the daemon can.  `logs` is the log of the container, or the rejection
of the `container.logs` call. -/
structure World where
  mkdir : Except JsError Unit
  writeFile : Except JsError Unit
  inspect : Except JsError Unit
  pull : Except JsError Unit
  followProgress : Except JsError Unit
  create : Except JsError Nat
  start : Except JsError Unit
  wait : Outcome Nat
  logs : Except JsError (List String)
  remove : Except JsError Unit
  rmTry : Except JsError Unit
  rmCatch : Except JsError Unit

/-! ## The effect monad -/

/-- A run of an async function: the external calls it made, in order, and its
return value, its thrown error, or the fact that it never settles. -/
structure Eff (α : Type) where
  trace : List Event
  result : Outcome α
deriving Repr

namespace Eff

/-- Return without any effect. -/
def ret {α : Type} (a : α) : Eff α := ⟨[], .ok a⟩

/-- Run `x`, then `f` on its value; a thrown error skips `f`, and so does a
run that never settles. -/
def andThen {α β : Type} (x : Eff α) (f : α → Eff β) : Eff β :=
  match x.result with
  | .ok a => ⟨x.trace ++ (f a).trace, (f a).result⟩
  | .error e => ⟨x.trace, .error e⟩
  | .pending => ⟨x.trace, .pending⟩

/-- Throw an error without any effect. -/
def raise {α : Type} (e : JsError) : Eff α := ⟨[], .error e⟩

/-- The `try { x } catch (e) { h e }` statement. -/
def attempt {α : Type} (x : Eff α) (h : JsError → Eff α) : Eff α :=
  match x.result with
  | .ok a => ⟨x.trace, .ok a⟩
  | .error e => ⟨x.trace ++ (h e).trace, (h e).result⟩
  | .pending => ⟨x.trace, .pending⟩

instance : Monad Eff where
  pure := ret
  bind := andThen

instance : MonadExcept JsError Eff where
  throw := raise
  tryCatch := attempt

end Eff

/-- Make one external call that settles: record it and resolve or reject as the
environment says. -/
def perform {α : Type} (ev : Event) (outcome : Except JsError α) : Eff α :=
  ⟨[ev], Outcome.ofExcept outcome⟩

/-- Make one external call that may never settle. -/
def await {α : Type} (ev : Event) (outcome : Outcome α) : Eff α :=
  ⟨[ev], outcome⟩

/-- The function `path.join` on segments that are already normalised. -/
def pathJoin (segments : List String) : String :=
  "/".intercalate segments

/-! ## worker.js -/

/-- Helper `pullImage`: inspect the image; when that rejects, pull it and
follow the progress stream to its end. -/
def pullImage (w : World) (imageName : String) : Eff Unit :=
  try
    perform (.imageInspect imageName) w.inspect
  catch _ =>
    do
      perform (.pull imageName) w.pull
      perform (.followProgress imageName) w.followProgress

/-- The container options object built in step 3 of `runCodeInDocker`. -/
def containerOptions (imageName : String) (command : List String) (tempDir : String) :
    ContainerOptions :=
  { Image := imageName
    Cmd := command
    HostConfig :=
      { Binds := [tempDir ++ ":/app:ro"]
        Memory := 256 * 1024 * 1024
        CpuPeriod := 100000
        CpuQuota := 50000
        NetworkMode := "none"
        ReadonlyRootfs := true }
    WorkingDir := "/app"
    StopTimeout := 5 }

/-- Lines 104 to 110 of `runCodeInDocker`: `logStream.on('data', ...)` and the
wait for `'end'`.  On a stream the handler sees every chunk.  A Buffer has no
method `on`, so the first call throws a `TypeError`. -/
def LogsValue.onData : LogsValue → Eff (List String)
  | .stream chunks => pure chunks
  | .buffer _ => throw (JsError.mk "logStream.on is not a function")

/-- The function `runCodeInDocker(language, code, tempDir)`. -/
def runCodeInDocker (w : World) (language code tempDir : String) : Eff Result := do
  let (imageName, codeFileName, command) ←
    if language = "javascript" then
      pure ("node:alpine", "index.js", ["node", "index.js"])
    else if language = "python" then
      pure ("python:alpine", "main.py", ["python", "main.py"])
    else
      throw (JsError.mk ("Unsupported language: " ++ language))
  let codeFilePath := pathJoin [tempDir, codeFileName]
  perform (.writeFile codeFilePath code) w.writeFile
  let opts := containerOptions imageName command tempDir
  try
    pullImage w imageName
    let container ← perform (.createContainer opts) w.create
    perform (.containerStart container) w.start
    let StatusCode ← await (.containerWait container 5000) w.wait
    let logStream ← perform (.containerLogs container true true false)
      (w.logs.map (dockerodeLogs false))
    let chunks ← logStream.onData
    let stdout := chunks.foldl (fun acc chunk => acc ++ chunk) ""
    let stderr := ""
    perform (.containerRemove container) w.remove
    if StatusCode ≠ 0 then
      pure { stdout := "", stderr := stdout }
    else
      pure { stdout := stdout, stderr := stderr }
  catch error =>
    throw (JsError.mk ("Container execution failed: " ++ error.message))

/-- A job as the queue hands it to the processor: its id and its data. -/
structure Job where
  id : String
  language : String
  code : String
deriving DecidableEq, Repr

/-- The staging directory of a job: `path.join(__dirname, 'temp', jobId)`. -/
def tempDirOf (dirname : String) (jobId : String) : String :=
  pathJoin [dirname, "temp", jobId]

/-- The per-job processor passed to `new Worker('code-jobs', ...)`.  A returned
value completes the job; a thrown error fails it. -/
def worker (w : World) (dirname : String) (job : Job) : Eff Result :=
  let language := job.language
  let code := job.code
  let jobId := job.id
  let tempDir := tempDirOf dirname jobId
  try
    perform (.mkdir tempDir true) w.mkdir
    let result ← runCodeInDocker w language code tempDir
    perform (.rm tempDir true true) w.rmTry
    pure result
  catch error =>
    do
      perform (.rm tempDir true true) w.rmCatch
      throw error

/-- A job record as the queue stores it: its state and, once the processor has
settled, what it returned or why it failed. -/
structure JobRecord where
  state : String
  returnvalue : Option Result
  failedReason : Option String
deriving DecidableEq, Repr

/-- Contract of the queue library (BullMQ, not part of the repository) for a
job handed to the processor: a returned value completes the job and is stored
as `returnvalue`; a thrown error fails the job and its message is stored as
`failedReason`; while the processor has not settled the job stays active. -/
def JobRecord.settled (run : Eff Result) : JobRecord :=
  match run.result with
  | .ok r => { state := "completed", returnvalue := some r, failedReason := none }
  | .error e => { state := "failed", returnvalue := none, failedReason := some e.message }
  | .pending => { state := "active", returnvalue := none, failedReason := none }

/-! ## index.js -/

/-- The test `!!v` of JavaScript: every value is truthy except `undefined`,
`null`, `false`, zero and the empty string. -/
def JsVal.truthy : JsVal → Bool
  | .undefined => false
  | .null => false
  | .bool b => b
  | .num n => decide (n ≠ 0)
  | .str s => decide (s ≠ "")
  | .object => true

/-- The two fields the submit handler destructures from `req.body`; a field
that is absent reads as `undefined`. -/
structure SubmitBody where
  code : JsVal
  language : JsVal
deriving DecidableEq, Repr

/-- The JSON bodies the two handlers send. -/
inductive ResponseBody where
  | error (error : String)
  | submitted (message : String) (jobId : String)
  | notFound (status : String) (error : String)
  | completed (output : Option Result)
  | failed (error : Option String)
  | pending
deriving DecidableEq, Repr

/-- An HTTP response: status code (200 unless `res.status` was called) and body. -/
structure Response where
  status : Nat
  body : ResponseBody
deriving DecidableEq, Repr

/-- The handler of `POST /submit`.  `add` is how `codeQueue.add` settles: with
the id of the new job, or with an error. -/
def postSubmit (add : Except JsError String) (body : SubmitBody) : Eff Response :=
  try
    let code := body.code
    let language := body.language
    if !code.truthy || !language.truthy then
      pure { status := 400, body := .error "Code and language are required." }
    else do
      let jobId ← perform (.queueAdd "run-code" code language) add
      pure { status := 200, body := .submitted "Job submitted successfully!" jobId }
  catch _ =>
    pure { status := 500, body := .error "Failed to submit job." }

/-- The handler of `GET /results/:jobId`.  `getJob` is the queue lookup, which
yields nothing for an unknown id. -/
def getResults (getJob : String → Option JobRecord) (jobId : String) : Response :=
  match getJob jobId with
  | none => { status := 404, body := .notFound "error" "Job not found" }
  | some job =>
    let state := job.state
    if state = "completed" then
      { status := 200, body := .completed job.returnvalue }
    else if state = "failed" then
      { status := 200, body := .failed job.failedReason }
    else
      { status := 200, body := .pending }

/-! ## Vocabulary of the statements -/

/-- The limits the specification lists for the sandbox of a job staged in
`tempDir`: 256 MiB of memory, half a CPU, no network, a read-only root file
system, and the staging directory as the single bind mount, read-only at
`/app`. -/
def sandboxLimits (tempDir : String) : HostConfig :=
  { Binds := [tempDir ++ ":/app:ro"]
    Memory := 256 * 1024 * 1024
    CpuPeriod := 100000
    CpuQuota := 50000
    NetworkMode := "none"
    ReadonlyRootfs := true }

/-- Whether the call is `container.start`. -/
def Event.isContainerStart : Event → Bool
  | .containerStart _ => true
  | _ => false

/-- The call concerns the staging directory `tempDir` and no other: it creates
it, writes the source file inside it, mounts it, or removes it recursively and
forced.  Calls that name no directory satisfy this trivially. -/
def Event.onStagingDir (tempDir : String) : Event → Prop
  | .mkdir dir _ => dir = tempDir
  | .writeFile file _ =>
    file = pathJoin [tempDir, "index.js"] ∨ file = pathJoin [tempDir, "main.py"]
  | .createContainer opts => opts.HostConfig.Binds = [tempDir ++ ":/app:ro"]
  | .rm dir recursive force => dir = tempDir ∧ recursive = true ∧ force = true
  | _ => True

/-! ## Concrete environments and jobs used as instances -/

/-- An environment in which every call resolves: the image is present, the
container gets id 7 and exits with code 0, and its log holds `ok`. -/
def calmWorld : World :=
  { mkdir := .ok ()
    writeFile := .ok ()
    inspect := .ok ()
    pull := .ok ()
    followProgress := .ok ()
    create := .ok 7
    start := .ok ()
    wait := .ok 0
    logs := .ok ["ok\n"]
    remove := .ok ()
    rmTry := .ok ()
    rmCatch := .ok () }

/-- The job of round-trip scenario A. -/
def pythonJob : Job := { id := "1", language := "python", code := "print('ok')" }

/-- The job of round-trip scenario C. -/
def cobolJob : Job := { id := "3", language := "cobol", code := "DISPLAY 'HI'." }

/-- The container is created and started, and the `container.wait` call is
rejected (the connection to the daemon times out). -/
def waitRejectWorld : World :=
  { calmWorld with
    wait := .error ⟨"connect ETIMEDOUT"⟩
    logs := .ok [] }

/-- The container is created, but starting it is rejected by the runtime. -/
def startFailWorld : World :=
  { calmWorld with start := .error ⟨"connect ETIMEDOUT"⟩ }

/-- The process exits with status code 0 and `container.logs` resolves with the
log; reading it then throws, as it does whenever the call resolves. -/
def logsFailWorld : World :=
  { calmWorld with logs := .ok ["Error: boom\n"] }

/-- The process never exits: `container.wait` stays pending. -/
def loopingWorld : World :=
  { calmWorld with
    wait := .pending
    logs := .ok [] }

/-- The process exits with code 0; the runtime would reject the removal of the
container. -/
def removeFailWorld : World :=
  { calmWorld with remove := .error ⟨"removal of container 7 is already in progress"⟩ }

/-- The process exits with status code 0 and the log of the container holds a
warning it wrote to standard error. -/
def warningWorld : World :=
  { calmWorld with logs := .ok ["DeprecationWarning: x\n"] }

/-- A job that warns on standard error and succeeds. -/
def warningJob : Job :=
  { id := "5", language := "python", code := "import warnings; warnings.warn('x')" }

/-- A job whose code never terminates. -/
def loopingJob : Job := { id := "4", language := "javascript", code := "while (true);" }

/-- A well-formed submission: both fields are non-empty text. -/
def pythonBody : SubmitBody := { code := .str "print('ok')", language := .str "python" }

/-- A submission without source text. -/
def emptyCodeBody : SubmitBody := { code := .str "", language := .str "python" }

/-- A queue lookup that knows job `1`, completed with the output of scenario A,
and job `2`, failed. -/
def sampleStore (jobId : String) : Option JobRecord :=
  if jobId = "1" then
    some { state := "completed", returnvalue := some ⟨"ok\n", ""⟩, failedReason := none }
  else if jobId = "2" then
    some { state := "failed", returnvalue := none, failedReason := some "boom" }
  else
    none

/-! ## Evaluation lemmas for the effect monad -/

@[simp]
theorem Eff.bind_eq {α β : Type} (x : Eff α) (f : α → Eff β) :
    x >>= f = Eff.andThen x f := rfl

@[simp]
theorem Eff.pure_eq {α : Type} (a : α) : (pure a : Eff α) = Eff.ret a := rfl

@[simp]
theorem Eff.throw_eq {α : Type} (e : JsError) : (throw e : Eff α) = Eff.raise e := rfl

@[simp]
theorem Eff.tryCatch_eq {α : Type} (x : Eff α) (h : JsError → Eff α) :
    tryCatch x h = Eff.attempt x h := rfl

attribute [simp] Eff.andThen Eff.ret Eff.raise Eff.attempt perform await Outcome.ofExcept
  Except.map dockerodeLogs LogsValue.onData

/-! ## Shared lemmas -/

/-- The image step succeeds when the image is present locally, or when it is
absent and both the pull and the progress stream succeed. -/
theorem pullImage_result_ok (w : World) (imageName : String)
    (h : w.inspect = .ok () ∨ (w.pull = .ok () ∧ w.followProgress = .ok ())) :
    (pullImage w imageName).result = .ok () := by
  cases hi : w.inspect with
  | ok u => simp [pullImage, hi]
  | error e =>
    rcases h with h | ⟨hp, hf⟩
    · rw [hi] at h; cases h
    · simp [pullImage, hi, hp, hf]

/-- An element of the longest prefix satisfying `p` lies before any element
that fails `p`. -/
theorem mem_pre_of_mem_takeWhile {p : Event → Bool} {x e : Event} (hx : p x = false) :
    ∀ (pre post : List Event), e ∈ (pre ++ x :: post).takeWhile p → e ∈ pre := by
  intro pre post
  induction pre with
  | nil => simp [List.takeWhile, hx]
  | cons a pre ih =>
    intro h
    by_cases ha : p a = true
    · simp [List.takeWhile, ha] at h
      rcases h with h | h
      · simp [h]
      · exact List.mem_cons_of_mem _ (ih h)
    · simp [List.takeWhile, ha] at h

/-- The last element of a list that ends in `b`. -/
theorem getLast?_cons_append_one (a b : Event) (xt : List Event) :
    (a :: (xt ++ [b])).getLast? = some b := by
  have h : a :: (xt ++ [b]) = (a :: xt) ++ [b] := rfl
  rw [h]
  exact List.getLast?_concat _

/-- The last element of a list that ends in `c, b`. -/
theorem getLast?_cons_append_two (a b c : Event) (xt : List Event) :
    (a :: (xt ++ [c, b])).getLast? = some b := by
  have h : a :: (xt ++ [c, b]) = (a :: (xt ++ [c])) ++ [b] := by simp
  rw [h]
  exact List.getLast?_concat _

/-- Every call `runCodeInDocker` makes concerns the staging directory it was
given. -/
theorem runCodeInDocker_onStagingDir (w : World) (language code tempDir : String) :
    ∀ ev ∈ (runCodeInDocker w language code tempDir).trace, ev.onStagingDir tempDir := by
  by_cases hj : language = "javascript"
  · simp [runCodeInDocker, pullImage, hj, containerOptions, Event.onStagingDir]
    cases hw : w.writeFile <;> simp [hw, Event.onStagingDir]
    cases hi : w.inspect <;> simp [hi, Event.onStagingDir]
    all_goals try (cases hp : w.pull <;> simp [hp, Event.onStagingDir])
    all_goals try (cases hf : w.followProgress <;> simp [hf, Event.onStagingDir])
    all_goals try (cases hc : w.create <;> simp [hc, Event.onStagingDir])
    all_goals try (cases hs : w.start <;> simp [hs, Event.onStagingDir])
    all_goals try (cases hwt : w.wait <;> simp [hwt, Event.onStagingDir])
    all_goals try (cases hlg : w.logs <;> simp [hlg, Event.onStagingDir])
  · by_cases hp : language = "python"
    · simp [runCodeInDocker, pullImage, hp, containerOptions, Event.onStagingDir]
      cases hw : w.writeFile <;> simp [hw, Event.onStagingDir]
      cases hi : w.inspect <;> simp [hi, Event.onStagingDir]
      all_goals try (cases hp : w.pull <;> simp [hp, Event.onStagingDir])
      all_goals try (cases hf : w.followProgress <;> simp [hf, Event.onStagingDir])
      all_goals try (cases hc : w.create <;> simp [hc, Event.onStagingDir])
      all_goals try (cases hs : w.start <;> simp [hs, Event.onStagingDir])
      all_goals try (cases hwt : w.wait <;> simp [hwt, Event.onStagingDir])
      all_goals try (cases hlg : w.logs <;> simp [hlg, Event.onStagingDir])
    · simp [runCodeInDocker, hj, hp]

/-- The container calls of a run for a supported language: every container is
created with the sandbox limits, and the calls before the first start include
such a creation. -/
theorem runCodeInDocker_create_before_start (w : World) (language code tempDir : String)
    (hlang : language = "javascript" ∨ language = "python") :
    (∀ opts, Event.createContainer opts ∈ (runCodeInDocker w language code tempDir).trace →
      opts.HostConfig = sandboxLimits tempDir) ∧
    (∀ id, Event.containerStart id ∈ (runCodeInDocker w language code tempDir).trace →
      ∃ opts, Event.createContainer opts ∈
        (runCodeInDocker w language code tempDir).trace.takeWhile
          (fun ev => !ev.isContainerStart) ∧
        opts.HostConfig = sandboxLimits tempDir) := by
  rcases hlang with hl | hl <;>
  · simp [runCodeInDocker, pullImage, hl, containerOptions, sandboxLimits]
    cases hw : w.writeFile <;> simp [hw]
    cases hi : w.inspect <;> simp [hi]
    all_goals try (cases hp : w.pull <;> simp [hp])
    all_goals try (cases hf : w.followProgress <;> simp [hf])
    all_goals try (cases hc : w.create <;> simp [hc])
    all_goals try (cases hs : w.start <;> simp [hs, Event.isContainerStart])
    all_goals try (cases hwt : w.wait <;> simp [hwt, Event.isContainerStart])
    all_goals try (cases hlg : w.logs <;> simp [hlg, Event.isContainerStart])

/-- Once the source is written and the image step has succeeded, the container
is created with the options built for the language. -/
theorem runCodeInDocker_creates (w : World) (language code tempDir : String)
    (hlang : language = "javascript" ∨ language = "python")
    (hwrite : w.writeFile = .ok ())
    (himage : w.inspect = .ok () ∨ (w.pull = .ok () ∧ w.followProgress = .ok ())) :
    ∃ opts, Event.createContainer opts ∈ (runCodeInDocker w language code tempDir).trace := by
  rcases hlang with hl | hl
  · refine ⟨containerOptions "node:alpine" ["node", "index.js"] tempDir, ?_⟩
    simp [runCodeInDocker, pullImage_result_ok w _ himage, hl, hwrite]
    cases hc : w.create <;> simp [hc]
    cases hs : w.start <;> simp [hs]
    cases hwt : w.wait <;> simp [hwt]
    cases hlg : w.logs <;> simp [hlg]
  · refine ⟨containerOptions "python:alpine" ["python", "main.py"] tempDir, ?_⟩
    simp [runCodeInDocker, pullImage_result_ok w _ himage, hl, hwrite]
    cases hc : w.create <;> simp [hc]
    cases hs : w.start <;> simp [hs]
    cases hwt : w.wait <;> simp [hwt]
    cases hlg : w.logs <;> simp [hlg]

/-- No run of `runCodeInDocker` returns a result, never calls
`container.remove`, and stays pending only when `container.wait` does. -/
theorem runCodeInDocker_never_returns (w : World) (language code tempDir : String) :
    (∀ r, (runCodeInDocker w language code tempDir).result ≠ .ok r) ∧
    (∀ id, Event.containerRemove id ∉ (runCodeInDocker w language code tempDir).trace) ∧
    ((runCodeInDocker w language code tempDir).result = .pending → w.wait = .pending) := by
  by_cases hj : language = "javascript"
  · simp [runCodeInDocker, pullImage, hj]
    cases hw : w.writeFile <;> simp [hw]
    cases hi : w.inspect <;> simp [hi]
    all_goals try (cases hp : w.pull <;> simp [hp])
    all_goals try (cases hf : w.followProgress <;> simp [hf])
    all_goals try (cases hc : w.create <;> simp [hc])
    all_goals try (cases hs : w.start <;> simp [hs])
    all_goals try (cases hwt : w.wait <;> simp [hwt])
    all_goals try (cases hlg : w.logs <;> simp [hlg])
  · by_cases hp : language = "python"
    · simp [runCodeInDocker, pullImage, hp]
      cases hw : w.writeFile <;> simp [hw]
      cases hi : w.inspect <;> simp [hi]
      all_goals try (cases hp : w.pull <;> simp [hp])
      all_goals try (cases hf : w.followProgress <;> simp [hf])
      all_goals try (cases hc : w.create <;> simp [hc])
      all_goals try (cases hs : w.start <;> simp [hs])
      all_goals try (cases hwt : w.wait <;> simp [hwt])
      all_goals try (cases hlg : w.logs <;> simp [hlg])
    · simp [runCodeInDocker, hj, hp]

/-! ## C1: exit status code and job outcome -/

/-- C1 at the failing input, scenario A: the container is created, started and
waited on without error and exits with status code 0, log capture then throws,
and the job ends as failed, not completed.  For no environment and no job does
the processor return a result. -/
theorem exit_code_zero_job_ends_failed :
    calmWorld.create = .ok 7 ∧ calmWorld.start = .ok () ∧ calmWorld.wait = .ok 0 ∧
    worker calmWorld "/srv" pythonJob =
      { trace :=
          [.mkdir "/srv/temp/1" true,
            .writeFile "/srv/temp/1/main.py" "print('ok')",
            .imageInspect "python:alpine",
            .createContainer (containerOptions "python:alpine" ["python", "main.py"] "/srv/temp/1"),
            .containerStart 7,
            .containerWait 7 5000,
            .containerLogs 7 true true false,
            .rm "/srv/temp/1" true true]
        result := .error ⟨"Container execution failed: logStream.on is not a function"⟩ } ∧
    (JobRecord.settled (worker calmWorld "/srv" pythonJob)).state = "failed" ∧
    ∀ (w : World) (dirname : String) (job : Job) (r : Result),
      (worker w dirname job).result ≠ .ok r := by
  refine ⟨rfl, rfl, rfl, ?_, ?_, ?_⟩
  · simp [worker, runCodeInDocker, pullImage, calmWorld, pythonJob, tempDirOf, pathJoin,
      String.intercalate, String.intercalate.go]
  · simp [worker, runCodeInDocker, pullImage, calmWorld, pythonJob, JobRecord.settled]
  · intro w dirname job r
    have hrun := (runCodeInDocker_never_returns w job.language job.code
      (tempDirOf dirname job.id)).1
    simp only [worker]
    generalize runCodeInDocker w job.language job.code (tempDirOf dirname job.id) = X at hrun ⊢
    rcases X with ⟨xt, xr⟩
    cases xr with
    | ok a => exact absurd rfl (hrun a)
    | error e => cases hm : w.mkdir <;> cases hc : w.rmCatch <;> simp [hm, hc]
    | pending => cases hm : w.mkdir <;> cases hc : w.rmCatch <;> simp [hm, hc]

/-! ## C2: the sandbox limits -/

/-- C2: for a supported language, whatever the source, the staging directory
and the environment, every container `runCodeInDocker` creates is created with
the sandbox limits (memory 256 MiB, CPU quota 50000 of period 100000, network
mode `none`, read-only root file system, the staging directory as the single
bind mount, read-only at `/app`), which mention neither source nor language;
every `container.start` call is preceded by such a `createContainer` call; and
the container is indeed created once the source is written and the image step
has succeeded. -/
theorem sandbox_limits_applied_before_start (w : World) (language code tempDir : String)
    (hlang : language = "javascript" ∨ language = "python") :
    (∀ opts, Event.createContainer opts ∈ (runCodeInDocker w language code tempDir).trace →
      opts.HostConfig = sandboxLimits tempDir) ∧
    (∀ pre id post,
      (runCodeInDocker w language code tempDir).trace = pre ++ Event.containerStart id :: post →
      ∃ opts, Event.createContainer opts ∈ pre ∧ opts.HostConfig = sandboxLimits tempDir) ∧
    (w.writeFile = .ok () →
      (w.inspect = .ok () ∨ (w.pull = .ok () ∧ w.followProgress = .ok ())) →
      ∃ opts, Event.createContainer opts ∈ (runCodeInDocker w language code tempDir).trace) := by
  obtain ⟨hall, hfirst⟩ := runCodeInDocker_create_before_start w language code tempDir hlang
  refine ⟨hall, ?_, fun hwrite himage => runCodeInDocker_creates w language code tempDir hlang
    hwrite himage⟩
  intro pre id post hsplit
  have hmem : Event.containerStart id ∈ (runCodeInDocker w language code tempDir).trace := by
    rw [hsplit]
    simp
  obtain ⟨opts, hopts, hlim⟩ := hfirst id hmem
  rw [hsplit] at hopts
  exact ⟨opts, mem_pre_of_mem_takeWhile (by simp [Event.isContainerStart]) pre post hopts, hlim⟩

/-- C2 at scenario A: the container of the Python job is created with the
sandbox limits for its staging directory. -/
theorem sandbox_limits_applied_before_start_witness :
    ("python" = "javascript" ∨ "python" = "python") ∧
    Event.createContainer (containerOptions "python:alpine" ["python", "main.py"] "/srv/temp/1") ∈
      (runCodeInDocker calmWorld "python" pythonJob.code "/srv/temp/1").trace ∧
    (containerOptions "python:alpine" ["python", "main.py"] "/srv/temp/1").HostConfig =
      sandboxLimits "/srv/temp/1" :=
  ⟨Or.inr rfl,
    by simp [runCodeInDocker, pullImage, calmWorld],
    (sandbox_limits_applied_before_start calmWorld "python" pythonJob.code "/srv/temp/1"
      (Or.inr rfl)).1 _ (by simp [runCodeInDocker, pullImage, calmWorld])⟩

/-! ## C3: removal of the container -/

/-- C3 at three failing inputs: when the wait call is rejected, when start is
rejected, and when log capture fails, `runCodeInDocker` has created a container
and throws without any `container.remove` call. -/
theorem container_not_removed_on_failure_paths :
    (runCodeInDocker waitRejectWorld "javascript" loopingJob.code "/srv/temp/4" =
      { trace :=
          [.writeFile "/srv/temp/4/index.js" "while (true);",
            .imageInspect "node:alpine",
            .createContainer (containerOptions "node:alpine" ["node", "index.js"] "/srv/temp/4"),
            .containerStart 7,
            .containerWait 7 5000]
        result := .error ⟨"Container execution failed: connect ETIMEDOUT"⟩ } ∧
      ∀ id, Event.containerRemove id ∉
        (runCodeInDocker waitRejectWorld "javascript" loopingJob.code "/srv/temp/4").trace) ∧
    (.createContainer (containerOptions "node:alpine" ["node", "index.js"] "/srv/temp/4") ∈
        (runCodeInDocker startFailWorld "javascript" loopingJob.code "/srv/temp/4").trace ∧
      ∀ id, Event.containerRemove id ∉
        (runCodeInDocker startFailWorld "javascript" loopingJob.code "/srv/temp/4").trace) ∧
    (.createContainer (containerOptions "node:alpine" ["node", "index.js"] "/srv/temp/4") ∈
        (runCodeInDocker logsFailWorld "javascript" loopingJob.code "/srv/temp/4").trace ∧
      ∀ id, Event.containerRemove id ∉
        (runCodeInDocker logsFailWorld "javascript" loopingJob.code "/srv/temp/4").trace) := by
  refine ⟨⟨?_, ?_⟩, ⟨?_, ?_⟩, ⟨?_, ?_⟩⟩ <;>
    simp [runCodeInDocker, pullImage, waitRejectWorld, startFailWorld, logsFailWorld, calmWorld,
      loopingJob, pathJoin, String.intercalate, String.intercalate.go]

/-! ## C4: removal of the staging directory -/

/-- C4: on every exit path of the processor, that is whenever it returns or
rethrows, the last call made before that is the recursive, forced removal of
the staging directory `temp/<jobId>`; the processor does return or rethrow in
every environment in which `container.wait` settles; and every directory the
run creates, writes the source into, mounts or removes is that same
directory. -/
theorem staging_dir_removed_on_every_exit_path (w : World) (dirname : String) (job : Job) :
    ((worker w dirname job).result ≠ .pending →
      (worker w dirname job).trace.getLast? =
        some (.rm (tempDirOf dirname job.id) true true)) ∧
    (w.wait ≠ .pending → (worker w dirname job).result ≠ .pending) ∧
    tempDirOf dirname job.id = pathJoin [dirname, "temp", job.id] ∧
    ∀ ev ∈ (worker w dirname job).trace, ev.onStagingDir (tempDirOf dirname job.id) := by
  have hrun := runCodeInDocker_onStagingDir w job.language job.code (tempDirOf dirname job.id)
  have hpend := (runCodeInDocker_never_returns w job.language job.code
    (tempDirOf dirname job.id)).2.2
  simp only [worker]
  generalize runCodeInDocker w job.language job.code (tempDirOf dirname job.id) = X
    at hrun hpend ⊢
  rcases X with ⟨xt, xr⟩
  simp only at hrun hpend
  refine ⟨?_, ?_, rfl, ?_⟩
  · cases hm : w.mkdir <;> cases xr <;> cases hr : w.rmTry <;> cases hc : w.rmCatch <;>
      simp [hm, hr, hc, getLast?_cons_append_one, getLast?_cons_append_two]
  · intro hwait
    cases hm : w.mkdir <;> cases xr <;> cases hr : w.rmTry <;> cases hc : w.rmCatch <;>
      simp [hm, hr, hc] <;> exact hwait (hpend rfl)
  · intro ev hev
    have hcases : ev = .mkdir (tempDirOf dirname job.id) true ∨ ev ∈ xt ∨
        ev = .rm (tempDirOf dirname job.id) true true := by
      revert hev
      cases hm : w.mkdir <;> cases xr <;> cases hr : w.rmTry <;> cases hc : w.rmCatch <;>
        simp [hm, hr, hc] <;> tauto
    rcases hcases with h | h | h
    · simp [h, Event.onStagingDir]
    · exact hrun ev h
    · simp [h, Event.onStagingDir]

/-- C4 at a job whose wait call is rejected: the run settles, the source file
was written inside `/srv/temp/4`, and the last call of the run removes
`/srv/temp/4`. -/
theorem staging_dir_removed_on_every_exit_path_witness :
    (worker waitRejectWorld "/srv" loopingJob).result ≠ .pending ∧
    Event.writeFile "/srv/temp/4/index.js" "while (true);" ∈
      (worker waitRejectWorld "/srv" loopingJob).trace ∧
    (Event.writeFile "/srv/temp/4/index.js" "while (true);").onStagingDir "/srv/temp/4" ∧
    (worker waitRejectWorld "/srv" loopingJob).trace.getLast? =
      some (.rm "/srv/temp/4" true true) :=
  ⟨(staging_dir_removed_on_every_exit_path waitRejectWorld "/srv" loopingJob).2.1
      (by simp [waitRejectWorld]),
    by simp [worker, runCodeInDocker, pullImage, waitRejectWorld, calmWorld, loopingJob,
      tempDirOf, pathJoin, String.intercalate, String.intercalate.go],
    (staging_dir_removed_on_every_exit_path waitRejectWorld "/srv" loopingJob).2.2.2 _
      (by simp [worker, runCodeInDocker, pullImage, waitRejectWorld, calmWorld, loopingJob,
        tempDirOf, pathJoin, String.intercalate, String.intercalate.go]),
    (staging_dir_removed_on_every_exit_path waitRejectWorld "/srv" loopingJob).1
      ((staging_dir_removed_on_every_exit_path waitRejectWorld "/srv" loopingJob).2.1
        (by simp [waitRejectWorld]))⟩

/-! ## C5: unsupported languages -/

/-- C5: for every language other than `javascript` and `python`,
`runCodeInDocker` throws `Unsupported language: <language>` without having made
any external call (no file written, no image inspected or pulled, no container
created or started), and the processor run for such a job makes no call other
than creating and removing the staging directory and ends the job as failed. -/
theorem unsupported_language_fails_before_any_effect (w : World)
    (language code : String)
    (hjs : language ≠ "javascript") (hpy : language ≠ "python") :
    (∀ tempDir, runCodeInDocker w language code tempDir =
      { trace := [], result := .error ⟨"Unsupported language: " ++ language⟩ }) ∧
    (∀ dirname id,
      (JobRecord.settled (worker w dirname ⟨id, language, code⟩)).state = "failed" ∧
      ∀ ev ∈ (worker w dirname ⟨id, language, code⟩).trace,
        ev = .mkdir (tempDirOf dirname id) true ∨ ev = .rm (tempDirOf dirname id) true true) := by
  have hrun : ∀ tempDir, runCodeInDocker w language code tempDir =
      { trace := [], result := .error ⟨"Unsupported language: " ++ language⟩ } := by
    intro tempDir
    simp [runCodeInDocker, hjs, hpy]
  refine ⟨hrun, ?_⟩
  intro dirname id
  rcases w with ⟨mkdir, writeFile, inspect, pull, followProgress, create, start, wait, logs,
    remove, rmTry, rmCatch⟩
  simp only [worker, hrun]
  cases mkdir <;> cases rmCatch <;> simp [JobRecord.settled]

/-- C5 at scenario C: a `cobol` job in an otherwise healthy environment. -/
theorem unsupported_language_fails_before_any_effect_witness :
    ("cobol" ≠ "javascript" ∧ "cobol" ≠ "python") ∧
    runCodeInDocker calmWorld "cobol" cobolJob.code "/srv/temp/3" =
      { trace := [], result := .error ⟨"Unsupported language: cobol"⟩ } :=
  ⟨⟨by decide, by decide⟩,
    (unsupported_language_fails_before_any_effect calmWorld "cobol" cobolJob.code
      (by decide) (by decide)).1 "/srv/temp/3"⟩

/-! ## C6: the two output fields -/

/-- C6 at the failing inputs: in scenario A, and for a process that writes a
warning to standard error and exits with code 0, `container.logs` resolves and
`runCodeInDocker` throws while reading the log: it returns no result, so
neither stream is returned.  No run of `runCodeInDocker` returns a result. -/
theorem log_capture_throws_on_every_run :
    runCodeInDocker calmWorld "python" pythonJob.code "/srv/temp/1" =
      { trace :=
          [.writeFile "/srv/temp/1/main.py" "print('ok')",
            .imageInspect "python:alpine",
            .createContainer (containerOptions "python:alpine" ["python", "main.py"] "/srv/temp/1"),
            .containerStart 7,
            .containerWait 7 5000,
            .containerLogs 7 true true false]
        result := .error ⟨"Container execution failed: logStream.on is not a function"⟩ } ∧
    (warningWorld.wait = .ok 0 ∧ warningWorld.logs = .ok ["DeprecationWarning: x\n"] ∧
      (runCodeInDocker warningWorld "python" warningJob.code "/srv/temp/5").result =
        .error ⟨"Container execution failed: logStream.on is not a function"⟩) ∧
    ∀ (w : World) (language code tempDir : String) (r : Result),
      (runCodeInDocker w language code tempDir).result ≠ .ok r := by
  refine ⟨?_, ⟨rfl, rfl, ?_⟩, ?_⟩
  · simp [runCodeInDocker, pullImage, calmWorld, pythonJob, pathJoin, String.intercalate,
      String.intercalate.go]
  · simp [runCodeInDocker, pullImage, warningWorld, calmWorld]
  · intro w language code tempDir r
    exact (runCodeInDocker_never_returns w language code tempDir).1 r

/-! ## C7: timeout of the wait step -/

/-- C7 at the failing input, a job whose code loops: the processor awaits
`container.wait` and never settles; the last call it has made is that wait, no
call stops, kills or removes the container, and the job stays active: it does
not end as failed.  The same holds in every environment in which the steps up
to `start` succeed and the process does not exit. -/
theorem looping_job_never_settles :
    loopingWorld.wait = .pending ∧
    worker loopingWorld "/srv" loopingJob =
      { trace :=
          [.mkdir "/srv/temp/4" true,
            .writeFile "/srv/temp/4/index.js" "while (true);",
            .imageInspect "node:alpine",
            .createContainer (containerOptions "node:alpine" ["node", "index.js"] "/srv/temp/4"),
            .containerStart 7,
            .containerWait 7 5000]
        result := .pending } ∧
    JobRecord.settled (worker loopingWorld "/srv" loopingJob) =
      { state := "active", returnvalue := none, failedReason := none } ∧
    ∀ (w : World) (dirname : String) (job : Job) (id : Nat),
      (job.language = "javascript" ∨ job.language = "python") →
      w.mkdir = .ok () → w.writeFile = .ok () →
      (w.inspect = .ok () ∨ (w.pull = .ok () ∧ w.followProgress = .ok ())) →
      w.create = .ok id → w.start = .ok () → w.wait = .pending →
      (worker w dirname job).result = .pending ∧
      (worker w dirname job).trace.getLast? = some (.containerWait id 5000) := by
  refine ⟨rfl, ?_, ?_, ?_⟩
  · simp [worker, runCodeInDocker, pullImage, loopingWorld, calmWorld, loopingJob, tempDirOf,
      pathJoin, String.intercalate, String.intercalate.go]
  · simp [worker, runCodeInDocker, pullImage, loopingWorld, calmWorld, loopingJob,
      JobRecord.settled]
  · intro w dirname job id hlang hmkdir hwrite himage hcreate hstart hwait
    have hp := pullImage_result_ok w
    constructor
    · rcases hlang with hl | hl <;>
        simp [worker, runCodeInDocker, hp _ himage, hl, hmkdir, hwrite, hcreate, hstart, hwait]
    · have hlast : ∀ pre : List Event,
          (worker w dirname job).trace = pre ++ [.containerWait id 5000] →
          (worker w dirname job).trace.getLast? = some (.containerWait id 5000) := by
        intro pre hpre
        rw [hpre]
        exact List.getLast?_concat _
      rcases hlang with hl | hl
      · refine hlast (.mkdir (tempDirOf dirname job.id) true ::
          .writeFile (pathJoin [tempDirOf dirname job.id, "index.js"]) job.code ::
          ((pullImage w "node:alpine").trace ++
            [.createContainer (containerOptions "node:alpine" ["node", "index.js"]
              (tempDirOf dirname job.id)), .containerStart id])) ?_
        simp [worker, runCodeInDocker, hp _ himage, hl, hmkdir, hwrite, hcreate, hstart, hwait]
      · refine hlast (.mkdir (tempDirOf dirname job.id) true ::
          .writeFile (pathJoin [tempDirOf dirname job.id, "main.py"]) job.code ::
          ((pullImage w "python:alpine").trace ++
            [.createContainer (containerOptions "python:alpine" ["python", "main.py"]
              (tempDirOf dirname job.id)), .containerStart id])) ?_
        simp [worker, runCodeInDocker, hp _ himage, hl, hmkdir, hwrite, hcreate, hstart, hwait]

/-! ## C8: failure of the teardown step -/

/-- C8 at the failing input, scenario A in an environment that would reject the
removal of the container: the process has exited with code 0 and
`container.logs` has resolved, yet the processor throws the log capture error
and returns no result; `container.remove` is not called at all.  No run of
`runCodeInDocker` calls `container.remove`. -/
theorem container_remove_never_reached :
    removeFailWorld.wait = .ok 0 ∧ removeFailWorld.logs = .ok ["ok\n"] ∧
    removeFailWorld.remove = .error ⟨"removal of container 7 is already in progress"⟩ ∧
    worker removeFailWorld "/srv" pythonJob =
      { trace :=
          [.mkdir "/srv/temp/1" true,
            .writeFile "/srv/temp/1/main.py" "print('ok')",
            .imageInspect "python:alpine",
            .createContainer (containerOptions "python:alpine" ["python", "main.py"] "/srv/temp/1"),
            .containerStart 7,
            .containerWait 7 5000,
            .containerLogs 7 true true false,
            .rm "/srv/temp/1" true true]
        result := .error ⟨"Container execution failed: logStream.on is not a function"⟩ } ∧
    ∀ (w : World) (language code tempDir : String) (id : Nat),
      Event.containerRemove id ∉ (runCodeInDocker w language code tempDir).trace := by
  refine ⟨rfl, rfl, rfl, ?_, ?_⟩
  · simp [worker, runCodeInDocker, pullImage, removeFailWorld, calmWorld, pythonJob, tempDirOf,
      pathJoin, String.intercalate, String.intercalate.go]
  · intro w language code tempDir id
    exact (runCodeInDocker_never_returns w language code tempDir).2.1 id

/-! ## C9: the submit handler -/

/-- C9 fails as stated: with `code` and `language` both present and non-empty,
when the queue rejects the `add` call the handler answers 500 with an error and
no job id. -/
theorem submit_valid_body_answers_500_when_add_rejects :
    pythonBody.code = .str "print('ok')" ∧ pythonBody.language = .str "python" ∧
    postSubmit (.error ⟨"Connection is closed."⟩) pythonBody =
      { trace := [.queueAdd "run-code" (.str "print('ok')") (.str "python")]
        result := .ok { status := 500, body := .error "Failed to submit job." } } := by
  refine ⟨rfl, rfl, ?_⟩
  simp [postSubmit, pythonBody, JsVal.truthy]

/-- C9 as amended: when `code` or `language` is falsy (missing, null, false,
zero or the empty text) the handler answers 400 with an error and never calls
the queue; otherwise it calls `add` exactly once with the two fields, answers
with the id of the new job when `add` succeeds and answers 500 with an error
when `add` rejects; so a job id is answered exactly when both fields are truthy
and `add` succeeds. -/
theorem submit_enqueues_iff_fields_truthy (add : Except JsError String) (body : SubmitBody) :
    (body.code.truthy = false ∨ body.language.truthy = false →
      postSubmit add body =
        { trace := []
          result := .ok { status := 400, body := .error "Code and language are required." } }) ∧
    (body.code.truthy = true → body.language.truthy = true →
      (postSubmit add body).trace = [.queueAdd "run-code" body.code body.language] ∧
      (∀ jobId, add = .ok jobId → (postSubmit add body).result =
        .ok { status := 200, body := .submitted "Job submitted successfully!" jobId }) ∧
      (∀ e, add = .error e → (postSubmit add body).result =
        .ok { status := 500, body := .error "Failed to submit job." })) ∧
    ((∃ jobId, (postSubmit add body).result =
        .ok { status := 200, body := .submitted "Job submitted successfully!" jobId }) ↔
      body.code.truthy = true ∧ body.language.truthy = true ∧ ∃ jobId, add = .ok jobId) := by
  rcases body with ⟨code, language⟩
  cases hc : code.truthy <;> cases hl : language.truthy <;> cases add <;>
    simp [postSubmit, hc, hl]

/-- C9 as amended, at a submission with empty source text and at a well-formed
submission accepted by the queue as job `41`. -/
theorem submit_enqueues_iff_fields_truthy_witness :
    (emptyCodeBody.code.truthy = false ∨ emptyCodeBody.language.truthy = false) ∧
    postSubmit (.ok "41") emptyCodeBody =
      { trace := []
        result := .ok { status := 400, body := .error "Code and language are required." } } ∧
    (pythonBody.code.truthy = true ∧ pythonBody.language.truthy = true) ∧
    (postSubmit (.ok "41") pythonBody).result =
      .ok { status := 200, body := .submitted "Job submitted successfully!" "41" } :=
  ⟨Or.inl (by decide),
    (submit_enqueues_iff_fields_truthy (.ok "41") emptyCodeBody).1 (Or.inl (by decide)),
    ⟨by decide, by decide⟩,
    ((submit_enqueues_iff_fields_truthy (.ok "41") pythonBody).2.1
      (by decide) (by decide)).2.1 "41" rfl⟩

/-! ## C10: the results handler -/

/-- C10: the response of `GET /results/:jobId` is determined by the job record
of that id: 404 when there is none; otherwise `completed` with the record's
return value exactly when its state is `completed`, `failed` with the record's
failure reason exactly when its state is `failed`, and `pending` when the state
is `waiting` or `active`.  For a job settled by the processor the output is the
value the processor returned, respectively the message of the error it threw.
Two lookups that agree on the id give the identical response. -/
theorem results_response_is_function_of_record (getJob : String → Option JobRecord)
    (jobId : String) :
    (getJob jobId = none →
      getResults getJob jobId = { status := 404, body := .notFound "error" "Job not found" }) ∧
    (∀ job, getJob jobId = some job →
      (getResults getJob jobId = { status := 200, body := .completed job.returnvalue } ↔
        job.state = "completed") ∧
      (getResults getJob jobId = { status := 200, body := .failed job.failedReason } ↔
        job.state = "failed") ∧
      (job.state = "waiting" ∨ job.state = "active" →
        getResults getJob jobId = { status := 200, body := .pending })) ∧
    (∀ run : Eff Result, getJob jobId = some (JobRecord.settled run) →
      (∀ r, run.result = .ok r →
        getResults getJob jobId = { status := 200, body := .completed (some r) }) ∧
      (∀ e, run.result = .error e →
        getResults getJob jobId = { status := 200, body := .failed (some e.message) })) ∧
    (∀ getJob2 : String → Option JobRecord, getJob2 jobId = getJob jobId →
      getResults getJob2 jobId = getResults getJob jobId) := by
  refine ⟨?_, ?_, ?_, ?_⟩
  · intro h
    simp [getResults, h]
  · intro job h
    refine ⟨?_, ?_, ?_⟩
    · by_cases hc : job.state = "completed"
      · simp [getResults, h, hc]
      · by_cases hf : job.state = "failed" <;> simp [getResults, h, hc, hf]
    · by_cases hc : job.state = "completed"
      · simp [getResults, h, hc]
      · by_cases hf : job.state = "failed" <;> simp [getResults, h, hc, hf]
    · rintro (hs | hs) <;> simp [getResults, h, hs]
  · intro run h
    constructor
    · intro r hr
      simp [getResults, h, JobRecord.settled, hr]
    · intro e he
      simp [getResults, h, JobRecord.settled, he]
  · intro getJob2 h
    simp [getResults, h]

/-- C10 at the sample store: an unknown id, and job `1` queried as completed. -/
theorem results_response_is_function_of_record_witness :
    sampleStore "9" = none ∧
    getResults sampleStore "9" = { status := 404, body := .notFound "error" "Job not found" } ∧
    sampleStore "1" =
      some { state := "completed", returnvalue := some ⟨"ok\n", ""⟩, failedReason := none } ∧
    getResults sampleStore "1" = { status := 200, body := .completed (some ⟨"ok\n", ""⟩) } :=
  ⟨by decide,
    (results_response_is_function_of_record sampleStore "9").1 (by decide),
    by decide,
    (((results_response_is_function_of_record sampleStore "1").2.1
      { state := "completed", returnvalue := some ⟨"ok\n", ""⟩, failedReason := none }
      (by decide)).1).2 rfl⟩

end IicpcEngine
